import Mathlib

/-!
Shallow embedding of the page-failure classification-and-recovery engine from
src/physmem/kernel/module/page_claiming/hwpoison/memory-failure_clone.c
(a clone of the 2.6.34 kernel memory-failure code).

Pages are modelled as values: a flags bitset (as in `page->flags`), a
reference count (`page_count`), the PageAnon discriminator, the sticky
hwpoison bit (kept as a named field; none of the classification masks
include it, so this is observationally the same as a flags bit), and the
backing address_space.  Compound pages are modelled single-frame, so
`compound_head` is the identity.

External collaborators (LRU isolation, rmap unmap, the allocator's buddy
detector, migration, cache invalidation, the process-table walk of
collect_procs, signal delivery) are supplied as oracle parameters:
booleans for result-only queries, `Page → Int × Page` functions where the
collaborator may also transform the page.  The engine's own control flow,
reference-count bookkeeping, ledger updates and bit manipulation follow
the C source line by line.
-/

namespace KernelMemtest

/-- page flag bit positions, following the 2.6.34 `enum pageflags` layout
(only distinctness matters for the mask arithmetic below). -/
def PG_locked : Nat := 0
def PG_error : Nat := 1
def PG_referenced : Nat := 2
def PG_uptodate : Nat := 3
def PG_dirty : Nat := 4
def PG_lru : Nat := 5
def PG_active : Nat := 6
def PG_slab : Nat := 7
def PG_owner_priv_1 : Nat := 8
def PG_arch_1 : Nat := 9
def PG_reserved : Nat := 10
def PG_private : Nat := 11
def PG_private_2 : Nat := 12
def PG_writeback : Nat := 13
def PG_head : Nat := 14
def PG_tail : Nat := 15
def PG_compound : Nat := 16
def PG_swapcache : Nat := 17
def PG_mappedtodisk : Nat := 18
def PG_reclaim : Nat := 19
def PG_swapbacked : Nat := 20
def PG_unevictable : Nat := 21
def PG_mlocked : Nat := 22

/-- `struct address_space`: the bits of the backing object the engine reads
or writes (writeback capability, the `error_remove_page` hook, `AS_EIO`). -/
structure AddrSpace where
  cap_writeback_dirty : Bool
  has_error_remove : Bool
  as_eio : Bool
deriving DecidableEq, Repr

/-- `struct page`, restricted to what the engine observes and mutates. -/
structure Page where
  flags : Nat
  refcount : Nat
  anon : Bool
  hwpoison : Bool
  mapping : Option AddrSpace
deriving DecidableEq, Repr

def hasFlag (p : Page) (i : Nat) : Bool := p.flags.testBit i

def setFlag (p : Page) (i : Nat) : Page := { p with flags := p.flags ||| (1 <<< i) }

def clearFlag (p : Page) (i : Nat) : Page :=
  { p with flags := if p.flags.testBit i then p.flags - (1 <<< i) else p.flags }

/-- `get_page` / the raise performed by a successful `get_page_unless_zero`. -/
def incRef (p : Page) : Page := { p with refcount := p.refcount + 1 }

/-- `put_page` / `page_cache_release`. -/
def putPage (p : Page) : Page := { p with refcount := p.refcount - 1 }

def setHWPoison (p : Page) : Page := { p with hwpoison := true }

def clearHWPoison (p : Page) : Page := { p with hwpoison := false }

/-- `swapper_space`: its backing device has no dirty-writeback capability
and provides no `error_remove_page` hook. -/
def swapper_space : AddrSpace := ⟨false, false, false⟩

/-- `page_mapping(page)`: swap-cache pages report `swapper_space`, anonymous
pages report NULL, file pages report their address_space. -/
def page_mapping (p : Page) : Option AddrSpace :=
  if hasFlag p PG_swapcache then some swapper_space
  else if p.anon then none
  else p.mapping

/-- page mutation done by `mapping_set_error(mapping, EIO)`: records `AS_EIO`
on the page's own backing object.  (For a swap-cache page the real target
would be the global `swapper_space`; the classifier's table routes
swap-cache pages away from the only caller, `me_pagecache_dirty`.) -/
def mapping_set_error (p : Page) : Page :=
  { p with mapping := p.mapping.map (fun m => { m with as_eio := true }) }

def page_has_private (p : Page) : Bool := hasFlag p PG_private

/-- `PageCompound(page)`: with CONFIG_PAGEFLAGS_EXTENDED it is head || tail,
otherwise the PG_compound bit. -/
def PageCompound (cfgExt : Bool) (p : Page) : Bool :=
  if cfgExt then hasFlag p PG_head || hasFlag p PG_tail else hasFlag p PG_compound

/-- collaborator `isolate_lru_page`: on success it removes the page from the
LRU (clearing PG_lru) and takes a reference; on failure -EBUSY. -/
def isolate_lru_page (ok : Bool) (p : Page) : Int × Page :=
  if ok then (0, incRef (clearFlag p PG_lru)) else (-16, p)

/-- `delete_from_lru_cache`: isolate, clear PG_active / PG_unevictable, drop
the reference isolate_lru_page took; -EIO when isolation fails. -/
def delete_from_lru_cache (ok : Bool) (p : Page) : Int × Page :=
  let ip := isolate_lru_page ok p
  if ip.1 = 0 then
    (0, putPage (clearFlag (clearFlag ip.2 PG_active) PG_unevictable))
  else (-5, p)

/-- recovery `enum outcome`. -/
inductive Outcome where
  | IGNORED
  | FAILED
  | DELAYED
  | RECOVERED
deriving DecidableEq, Repr

/-- identities of the action functions stored in the table; `page_action`
compares the stored pointer against `me_swapcache_dirty`, which this enum
makes decidable. -/
inductive ActionKind where
  | kernel
  | unknown
  | pagecache_clean
  | pagecache_dirty
  | swapcache_dirty
  | swapcache_clean
  | huge_page
deriving DecidableEq, Repr

/-- oracles used inside the recovery actions. -/
structure ActEnv where
  isolate_ok : Bool
  error_remove : Page → Int × Page
  release_ok : Bool
  invalidate : Page → Int × Page

/-- `me_kernel`: do nothing. -/
def me_kernel (p : Page) : Outcome × Page := (Outcome.IGNORED, p)

/-- `me_unknown`. -/
def me_unknown (p : Page) : Outcome × Page := (Outcome.FAILED, p)

/-- `me_huge_page`. -/
def me_huge_page (p : Page) : Outcome × Page := (Outcome.FAILED, p)

/-- `me_pagecache_clean`. -/
def me_pagecache_clean (env : ActEnv) (p : Page) : Outcome × Page :=
  let p1 := (delete_from_lru_cache env.isolate_ok p).2
  if p1.anon then (Outcome.RECOVERED, p1)
  else
    match page_mapping p1 with
    | none => (Outcome.FAILED, p1)
    | some m =>
      if m.has_error_remove then
        let ep := env.error_remove p1
        if ep.1 ≠ 0 then (Outcome.FAILED, ep.2)
        else if page_has_private ep.2 && !env.release_ok then (Outcome.FAILED, ep.2)
        else (Outcome.RECOVERED, ep.2)
      else
        let ip := env.invalidate p1
        if ip.1 ≠ 0 then (Outcome.RECOVERED, ip.2) else (Outcome.FAILED, ip.2)

/-- `me_pagecache_dirty`: set PG_error, record AS_EIO on the backing object,
then fall through to the clean handler. -/
def me_pagecache_dirty (env : ActEnv) (p : Page) : Outcome × Page :=
  let p1 := setFlag p PG_error
  let p2 := if (page_mapping p1).isSome then mapping_set_error p1 else p1
  me_pagecache_clean env p2

/-- `me_swapcache_dirty`: clear dirty and uptodate, drop from the LRU but
keep swap-cache membership; DELAYED on success, FAILED otherwise. -/
def me_swapcache_dirty (env : ActEnv) (p : Page) : Outcome × Page :=
  let p1 := clearFlag (clearFlag p PG_dirty) PG_uptodate
  let d := delete_from_lru_cache env.isolate_ok p1
  if d.1 = 0 then (Outcome.DELAYED, d.2) else (Outcome.FAILED, d.2)

/-- `me_swapcache_clean`: `delete_from_swap_cache` (clears PG_swapcache and
drops the swap-cache reference), then drop from the LRU. -/
def me_swapcache_clean (env : ActEnv) (p : Page) : Outcome × Page :=
  let p1 := putPage (clearFlag p PG_swapcache)
  let d := delete_from_lru_cache env.isolate_ok p1
  if d.1 = 0 then (Outcome.RECOVERED, d.2) else (Outcome.FAILED, d.2)

/-- dispatch an `ActionKind` to the function it names. -/
def runAction (env : ActEnv) (k : ActionKind) (p : Page) : Outcome × Page :=
  match k with
  | ActionKind.kernel => me_kernel p
  | ActionKind.unknown => me_unknown p
  | ActionKind.pagecache_clean => me_pagecache_clean env p
  | ActionKind.pagecache_dirty => me_pagecache_dirty env p
  | ActionKind.swapcache_dirty => me_swapcache_dirty env p
  | ActionKind.swapcache_clean => me_swapcache_clean env p
  | ActionKind.huge_page => me_huge_page p

/-- `struct page_state`: one row of the classification table. -/
structure PageState where
  mask : Nat
  res : Nat
  msg : String
  action : ActionKind
deriving DecidableEq, Repr

def dirty : Nat := 1 <<< PG_dirty
def sc : Nat := 1 <<< PG_swapcache
def unevict : Nat := 1 <<< PG_unevictable
def mlock : Nat := 1 <<< PG_mlocked
def lru : Nat := 1 <<< PG_lru
def head : Nat := 1 <<< PG_head
def tail : Nat := 1 <<< PG_tail
def compound : Nat := 1 <<< PG_compound
def slab : Nat := 1 <<< PG_slab
def reserved : Nat := 1 <<< PG_reserved

/-- the ordered `error_states` table; `cfgExt` selects the
CONFIG_PAGEFLAGS_EXTENDED variant of the huge-page rows. -/
def error_states (cfgExt : Bool) : List PageState :=
  [⟨reserved, reserved, "reserved kernel", ActionKind.kernel⟩,
   ⟨slab, slab, "kernel slab", ActionKind.kernel⟩] ++
  (if cfgExt then
    [⟨head, head, "huge", ActionKind.huge_page⟩,
     ⟨tail, tail, "huge", ActionKind.huge_page⟩]
   else
    [⟨compound, compound, "huge", ActionKind.huge_page⟩]) ++
  [⟨sc ||| dirty, sc ||| dirty, "swapcache", ActionKind.swapcache_dirty⟩,
   ⟨sc ||| dirty, sc, "swapcache", ActionKind.swapcache_clean⟩,
   ⟨unevict ||| dirty, unevict ||| dirty, "unevictable LRU", ActionKind.pagecache_dirty⟩,
   ⟨unevict, unevict, "unevictable LRU", ActionKind.pagecache_clean⟩,
   ⟨mlock ||| dirty, mlock ||| dirty, "mlocked LRU", ActionKind.pagecache_dirty⟩,
   ⟨mlock, mlock, "mlocked LRU", ActionKind.pagecache_clean⟩,
   ⟨lru ||| dirty, lru ||| dirty, "LRU", ActionKind.pagecache_dirty⟩,
   ⟨lru ||| dirty, lru, "clean LRU", ActionKind.pagecache_clean⟩,
   ⟨0, 0, "unknown page state", ActionKind.unknown⟩]

/-- the first-match scan `for (ps = error_states; (p->flags & ps->mask) != ps->res; ps++)`;
the zero-mask catch-all guarantees the nil case is never reached. -/
def firstMatch (p : Page) : List PageState → PageState
  | [] => ⟨0, 0, "unknown page state", ActionKind.unknown⟩
  | ps :: rest => if p.flags &&& ps.mask = ps.res then ps else firstMatch p rest

/-- classification of a page snapshot: pure table lookup, the page is not
touched. -/
def classify (cfgExt : Bool) (p : Page) : PageState := firstMatch p (error_states cfgExt)

/-- log lines `page_action` can emit. -/
inductive LogEv where
  | actionRes (pfn : Nat) (msg : String) (out : Outcome)
  | stillRef (pfn : Nat) (msg : String) (count : Int)
deriving DecidableEq, Repr

structure PARes where
  ret : Int
  page : Page
  logs : List LogEv
deriving DecidableEq, Repr

/-- `page_action`: run the rule's action, then re-check the reference count:
`count = page_count(p) - 1`, minus one more for the expected residual
reference of the swapcache-dirty DELAYED case; a nonzero remainder logs
"still referenced by %d users" and downgrades the outcome to FAILED.
RECOVERED/DELAYED map to 0, everything else to -EBUSY. -/
def page_action (env : ActEnv) (ps : PageState) (p : Page) (pfn : Nat) : PARes :=
  let rp := runAction env ps.action p
  let count0 : Int := (rp.2.refcount : Int) - 1
  let count : Int :=
    if ps.action = ActionKind.swapcache_dirty ∧ rp.1 = Outcome.DELAYED then count0 - 1 else count0
  let result := if count ≠ 0 then Outcome.FAILED else rp.1
  let logs :=
    if count ≠ 0 then
      [LogEv.actionRes pfn ps.msg rp.1, LogEv.stillRef pfn ps.msg count]
    else [LogEv.actionRes pfn ps.msg rp.1]
  ⟨if result = Outcome.RECOVERED ∨ result = Outcome.DELAYED then 0 else -16, rp.2, logs⟩

/-- `struct to_kill`: one notify entry. -/
structure ToKill where
  tsk : Nat
  addr : Nat
  addr_valid : Bool
deriving DecidableEq, Repr

/-- a delivered signal: `force_sig(SIGKILL, ...)` or the catchable
BUS_MCEERR_AO SIGBUS of `kill_proc_ao`. -/
inductive Sig where
  | forced (tsk : Nat)
  | advisory (tsk : Nat) (addr : Nat) (trapno : Int)
deriving DecidableEq, Repr

def Sig.isForced : Sig → Bool
  | Sig.forced _ => true
  | Sig.advisory _ _ _ => false

/-- `kill_procs_ao`: walk the collected list; when `doit`, entries send a
forced SIGKILL if `fail` or the address is invalid, otherwise the advisory
signal; every entry has its task reference dropped and its memory freed.
Returns (signals sent, tasks released in list order). -/
def kill_procs_ao (tokill : List ToKill) (doit : Bool) (trapno : Int) (fail : Bool)
    (pfn : Nat) : List Sig × List Nat :=
  match tokill with
  | [] => ([], [])
  | tk :: rest =>
    let sig : List Sig :=
      if doit then
        if fail || !tk.addr_valid then [Sig.forced tk.tsk]
        else [Sig.advisory tk.tsk tk.addr trapno]
      else []
    let r := kill_procs_ao rest doit trapno fail pfn
    (sig ++ r.1, tk.tsk :: r.2)

def SWAP_SUCCESS : Int := 0
def SWAP_AGAIN : Int := 1
def SWAP_FAIL : Int := 2

def TTU_UNMAP : Nat := 0
def TTU_IGNORE_MLOCK : Nat := 1 <<< 8
def TTU_IGNORE_ACCESS : Nat := 1 <<< 9
def TTU_IGNORE_HWPOISON : Nat := 1 <<< 10

def N_UNMAP_TRIES : Nat := 5

/-- oracles of the unmap-and-notify protocol: `page_mapped`, `PageKsm`,
the `page_mkclean` probe, what `collect_procs`'s process walk would find,
and `try_to_unmap` (indexed by attempt). -/
structure UMEnv where
  page_mapped : Bool
  is_ksm : Bool
  mkclean : Bool
  collected : List ToKill
  unmap : Nat → Nat → Page → Int × Page

/-- result of `propagate_dirty`: kill decision, ttu flags, page. -/
structure PropRes where
  kill : Bool
  ttu : Nat
  page : Page
deriving Repr

/-- dirty-bit propagation: for a clean page with a writeback-capable backing
object, `page_mkclean` decides; dirty PTEs set PG_dirty, a clean result
suppresses killing and makes the unmap ignore hwpoison. -/
def propagate_dirty (mkclean : Bool) (ttu : Nat) (p : Page) : PropRes :=
  match page_mapping p with
  | some m =>
    if !hasFlag p PG_dirty && m.cap_writeback_dirty then
      if mkclean then ⟨true, ttu, setFlag p PG_dirty⟩
      else ⟨false, ttu ||| TTU_IGNORE_HWPOISON, p⟩
    else ⟨true, ttu, p⟩
  | none => ⟨true, ttu, p⟩

/-- the `try_to_unmap` retry loop: attempts `i, i+1, ...` while the fuel
lasts, stopping early on SWAP_SUCCESS; the result is the last attempt's.
Always entered with positive fuel (N_UNMAP_TRIES = 5). -/
def unmapTries (f : Nat → Nat → Page → Int × Page) (ttu : Nat) :
    Nat → Nat → Page → Int × Page
  | _, 0, p => (SWAP_FAIL, p)
  | i, Nat.succ n, p =>
    let rp := f i ttu p
    if rp.1 = SWAP_SUCCESS ∨ n = 0 then rp else unmapTries f ttu (i + 1) n rp.2

structure UMRes where
  ret : Int
  page : Page
  sigs : List Sig
  collectInvoked : Bool
  released : List Nat
deriving DecidableEq, Repr

/-- tail of `hwpoison_user_mappings` after the early outs: dirty
propagation, the conditional `collect_procs` walk, the bounded unmap
retry, and the kill decision (`doit` = page dirty after unmap, `fail` =
unmap not fully successful). -/
def hwpoison_unmap_and_kill (env : UMEnv) (p : Page) (pfn : Nat) (trapno : Int)
    (ttu1 : Nat) : UMRes :=
  let pr := propagate_dirty env.mkclean ttu1 p
  let tokill := if pr.kill then env.collected else []
  let ur := unmapTries env.unmap pr.ttu 0 N_UNMAP_TRIES pr.page
  let kr := kill_procs_ao tokill (hasFlag ur.2 PG_dirty) trapno
    (decide (ur.1 ≠ SWAP_SUCCESS)) pfn
  ⟨ur.1, ur.2, kr.1, pr.kill, kr.2⟩

/-- `hwpoison_user_mappings`: the strictly ordered unmap-and-notify
protocol.  Early outs: reserved/slab and unmapped pages succeed trivially,
compound/KSM pages fail; then swap-cache marking and the unmap-and-kill
tail. -/
def hwpoison_user_mappings (cfgExt : Bool) (env : UMEnv) (p : Page) (pfn : Nat)
    (trapno : Int) : UMRes :=
  let ttu0 := TTU_UNMAP ||| TTU_IGNORE_MLOCK ||| TTU_IGNORE_ACCESS
  if hasFlag p PG_reserved || hasFlag p PG_slab then ⟨SWAP_SUCCESS, p, [], false, []⟩
  else if !env.page_mapped then ⟨SWAP_SUCCESS, p, [], false, []⟩
  else if PageCompound cfgExt p || env.is_ksm then ⟨SWAP_FAIL, p, [], false, []⟩
  else
    let ttu1 := if hasFlag p PG_swapcache then ttu0 ||| TTU_IGNORE_HWPOISON else ttu0
    hwpoison_unmap_and_kill env p pfn trapno ttu1

/-- `unpoison_memory__clone`: -ENXIO on an invalid frame; no-op success when
not poisoned; on a free page clear the bit and decrement the ledger; else
take a reference, clear under the page lock (decrementing the ledger), and
drop the reference plus one extra when clearing occurred. -/
def unpoison_memory__clone (pfn_valid : Bool) (p : Page) (ledger : Int) :
    Int × Page × Int :=
  if !pfn_valid then (-6, p, ledger)
  else if !p.hwpoison then (0, p, ledger)
  else if p.refcount = 0 then
    if p.hwpoison then (0, clearHWPoison p, ledger - 1) else (0, p, ledger)
  else
    let p1 := incRef p
    if p1.hwpoison then (0, putPage (putPage (clearHWPoison p1)), ledger - 1)
    else (0, putPage p1, ledger)

def MF_COUNT_INCREASED : Nat := 1

/-- events of the quarantine acquisition protocol, in call order. -/
inductive Ev where
  | lockSystemSleep
  | setIsolate
  | unsetIsolate
  | unlockSystemSleep
deriving DecidableEq, Repr

structure GapRes where
  ret : Int
  page : Page
  events : List Ev
deriving DecidableEq, Repr

/-- `get_any_page`: with MF_COUNT_INCREASED return 1 at once; otherwise take
the suspend lock, isolate the page's migratetype, try to raise the count
from zero; a failed raise consults the buddy detector (free: poison and 0,
else -EIO); a successful raise returns 1 with the reference held.  The
isolation and the suspend lock are released on every path, recorded in the
event trace. -/
def get_any_page (p : Page) (_pfn : Nat) (flags : Nat) (is_free : Bool) : GapRes :=
  if flags &&& MF_COUNT_INCREASED ≠ 0 then ⟨1, p, []⟩
  else
    let acq := [Ev.lockSystemSleep, Ev.setIsolate]
    let rel := [Ev.unsetIsolate, Ev.unlockSystemSleep]
    if p.refcount = 0 then
      if is_free then ⟨0, setHWPoison p, acq ++ rel⟩
      else ⟨-5, p, acq ++ rel⟩
    else ⟨1, incRef p, acq ++ rel⟩

/-- oracles of the soft-offline controller: the two buddy probes, the
cache-drain (`shake_page__clone`), `invalidate_inode_page`, the LRU
isolation, and `migrate_pages`. -/
structure SoEnv where
  is_free1 : Bool
  is_free2 : Bool
  shake : Page → Page
  invalidate : Page → Int × Page
  isolate_ok : Bool
  migrate : Page → Int × Page

structure SoRes where
  ret : Int
  page : Page
  ledger : Int
  invalidateCalled : Bool
  migrateCalled : Bool
deriving DecidableEq, Repr

/-- the `done` label: `atomic_long_add(1, &mce_bad_pages); SetPageHWPoison(page);
return ret;`. -/
def soDone (p : Page) (ledger : Int) (inv mig : Bool) (ret : Int) : SoRes :=
  ⟨ret, setHWPoison p, ledger + 1, inv, mig⟩

/-- tail of `soft_offline_page__clone` after the LRU retry: the -EIO check
for non-LRU pages, the already-poisoned -EBUSY check (unlock + put), the
invalidate attempt (whose reference is dropped before the test), and the
isolate + migrate fallback with positive migrate results turned into -EIO. -/
def soft_offline_phase3 (env : SoEnv) (ledger : Int) (p : Page) : SoRes :=
  if !hasFlag p PG_lru then ⟨-5, p, ledger, false, false⟩
  else if p.hwpoison then ⟨-16, putPage p, ledger, false, false⟩
  else
    let iv := env.invalidate p
    let p2 := putPage iv.2
    if iv.1 = 1 then soDone p2 ledger true false 0
    else
      let il := isolate_lru_page env.isolate_ok p2
      if il.1 = 0 then
        let mg := env.migrate il.2
        let mret := if 0 < mg.1 then (-5 : Int) else mg.1
        if mret ≠ 0 then ⟨mret, mg.2, ledger, true, true⟩
        else soDone mg.2 ledger true true mret
      else ⟨il.1, il.2, ledger, true, false⟩

/-- the non-LRU retry block of `soft_offline_page__clone`: drop the
reference, shake, and re-acquire through `get_any_page` with flags 0. -/
def soft_offline_phase2 (env : SoEnv) (pfn : Nat) (ledger : Int) (p : Page) : SoRes :=
  if hasFlag p PG_lru then soft_offline_phase3 env ledger p
  else
    let p1 := env.shake (putPage p)
    let g2 := get_any_page p1 pfn 0 env.is_free2
    if g2.ret < 0 then ⟨g2.ret, g2.page, ledger, false, false⟩
    else if g2.ret = 0 then soDone g2.page ledger false false g2.ret
    else soft_offline_phase3 env ledger g2.page

/-- `soft_offline_page__clone`: acquire via `get_any_page`; a negative result
propagates, a free page goes straight to `done`, otherwise continue with
the held reference. -/
def soft_offline_page__clone (env : SoEnv) (p0 : Page) (pfn : Nat) (flags : Nat)
    (ledger : Int) : SoRes :=
  let g1 := get_any_page p0 pfn flags env.is_free1
  if g1.ret < 0 then ⟨g1.ret, g1.page, ledger, false, false⟩
  else if g1.ret = 0 then soDone g1.page ledger false false g1.ret
  else soft_offline_phase2 env pfn ledger g1.page

theorem and_one_shiftLeft (f i : Nat) :
    f &&& (1 <<< i) = if f.testBit i then 1 <<< i else 0 := by
  rw [Nat.one_shiftLeft, Nat.and_two_pow]
  cases h : f.testBit i <;> simp [h]

theorem one_shiftLeft_ne_zero (i : Nat) : (1 <<< i) ≠ 0 := by
  rw [Nat.one_shiftLeft]
  have : 0 < 2 ^ i := Nat.pos_pow_of_pos i (by omega)
  omega

/-- C8: a page with the reserved/kernel attribute or the slab attribute is
classified by the first-match scan to a rule whose action is `me_kernel`
(the first or second table row), the outcome is IGNORED, and the action
returns the page completely unchanged (classification itself is a pure
lookup and never touches the page). -/
theorem kernel_slab_classified_ignored_unmutated (cfgExt : Bool) (env : ActEnv)
    (p : Page) (h : hasFlag p PG_reserved = true ∨ hasFlag p PG_slab = true) :
    (classify cfgExt p).action = ActionKind.kernel ∧
    runAction env (classify cfgExt p).action p = (Outcome.IGNORED, p) := by
  have hres := and_one_shiftLeft p.flags PG_reserved
  have hslab := and_one_shiftLeft p.flags PG_slab
  have hcl : (classify cfgExt p).action = ActionKind.kernel := by
    by_cases hr : p.flags.testBit PG_reserved
    · simp only [hr, if_true] at hres
      simp [classify, error_states, firstMatch, reserved, hres]
    · simp only [hr, if_false] at hres
      have hs : p.flags.testBit PG_slab = true := by
        rcases h with h | h
        · exact absurd h (by simpa [hasFlag] using hr)
        · simpa [hasFlag] using h
      simp only [hs, if_true] at hslab
      have hnz : (0 : Nat) ≠ 1 <<< PG_reserved :=
        Ne.symm (one_shiftLeft_ne_zero PG_reserved)
      simp [classify, error_states, firstMatch, reserved, slab, hres, hslab, hnz]
  exact ⟨hcl, by rw [hcl]; rfl⟩

/-- witness for C8 at a concrete slab page. -/
theorem kernel_slab_classified_ignored_unmutated_witness :
    (classify false ⟨slab, 1, false, false, none⟩).action = ActionKind.kernel ∧
    runAction ⟨true, fun q => (0, q), true, fun q => (0, q)⟩
      (classify false ⟨slab, 1, false, false, none⟩).action
      ⟨slab, 1, false, false, none⟩ =
      (Outcome.IGNORED, ⟨slab, 1, false, false, none⟩) :=
  kernel_slab_classified_ignored_unmutated false
    ⟨true, fun q => (0, q), true, fun q => (0, q)⟩
    ⟨slab, 1, false, false, none⟩ (Or.inr (by decide))

/-- C1: when the matched rule's action is `me_swapcache_dirty`, the action
returned DELAYED, and the page has 2 outstanding references after the
action runs (outstanding = held by others, i.e. `page_count` = 3 counting
the dispatcher's own reference), the dispatcher subtracts its own
reference and the one expected residual reference, finds 1 remaining,
logs "still referenced" with count 1, and downgrades the outcome to
FAILED, returning -EBUSY. -/
theorem swapcache_dirty_still_referenced_downgrade (env : ActEnv) (ps : PageState)
    (p : Page) (pfn : Nat) (ha : ps.action = ActionKind.swapcache_dirty)
    (hres : (runAction env ps.action p).1 = Outcome.DELAYED)
    (hcnt : (runAction env ps.action p).2.refcount = 3) :
    (page_action env ps p pfn).ret = -16 ∧
    LogEv.stillRef pfn ps.msg 1 ∈ (page_action env ps p pfn).logs := by
  rw [ha] at hres hcnt
  simp [page_action, ha, hres, hcnt]

def c1Env : ActEnv := ⟨true, fun q => (0, q), true, fun q => (0, q)⟩

def c1Page : Page := ⟨sc ||| dirty ||| lru, 3, false, false, none⟩

def c1Rule : PageState := ⟨sc ||| dirty, sc ||| dirty, "swapcache", ActionKind.swapcache_dirty⟩

/-- witness for C1: a swap-cache dirty LRU page with `page_count` 3; the
action succeeds (DELAYED) leaving the count at 3, and the dispatcher
downgrades to FAILED. -/
theorem swapcache_dirty_still_referenced_downgrade_witness :
    (runAction c1Env c1Rule.action c1Page).1 = Outcome.DELAYED ∧
    (runAction c1Env c1Rule.action c1Page).2.refcount = 3 ∧
    (page_action c1Env c1Rule c1Page 9).ret = -16 ∧
    LogEv.stillRef 9 c1Rule.msg 1 ∈ (page_action c1Env c1Rule c1Page 9).logs := by
  have h := swapcache_dirty_still_referenced_downgrade c1Env c1Rule c1Page 9
    rfl (by decide) (by decide)
  exact ⟨by decide, by decide, h.1, h.2⟩

/-- C10: `kill_procs_ao` fully consumes the notify list: the tasks whose
reference is released (each entry also being freed) are exactly the
entries of the list in order, regardless of `doit` and `fail`, so nothing
remains on the list when the step returns. -/
theorem kill_procs_ao_consumes_list (tokill : List ToKill) (doit : Bool)
    (trapno : Int) (fail : Bool) (pfn : Nat) :
    (kill_procs_ao tokill doit trapno fail pfn).2 = tokill.map ToKill.tsk := by
  induction tokill with
  | nil => rfl
  | cons tk rest ih => simp [kill_procs_ao, ih]

theorem kill_procs_ao_fail_forced (l : List ToKill) (d : Bool) (t : Int) (pfn : Nat) :
    ∀ s ∈ (kill_procs_ao l d t true pfn).1, s.isForced = true := by
  induction l with
  | nil => intro s hs; simp [kill_procs_ao] at hs
  | cons tk rest ih =>
    intro s hs
    simp only [kill_procs_ao, Bool.true_or, if_true, List.mem_append] at hs
    rcases hs with hs | hs
    · cases d with
      | false => simp at hs
      | true =>
        simp at hs
        subst hs
        rfl
    · exact ih s hs

theorem kill_procs_ao_fail_covers (l : List ToKill) (t : Int) (pfn : Nat) :
    ∀ k ∈ (kill_procs_ao l true t true pfn).2,
      Sig.forced k ∈ (kill_procs_ao l true t true pfn).1 := by
  induction l with
  | nil => intro k hk; simp [kill_procs_ao] at hk
  | cons tk rest ih =>
    intro k hk
    simp only [kill_procs_ao, Bool.true_or, if_true, List.mem_cons] at hk
    simp only [kill_procs_ao, Bool.true_or, if_true, List.mem_append]
    rcases hk with rfl | hk
    · exact Or.inl (by simp)
    · exact Or.inr (ih k hk)

theorem unmap_and_kill_fail (env : UMEnv) (p : Page) (pfn : Nat) (trapno : Int)
    (ttu1 : Nat)
    (hfail : (hwpoison_unmap_and_kill env p pfn trapno ttu1).ret ≠ SWAP_SUCCESS) :
    (∀ s ∈ (hwpoison_unmap_and_kill env p pfn trapno ttu1).sigs, s.isForced = true) ∧
    (hasFlag (hwpoison_unmap_and_kill env p pfn trapno ttu1).page PG_dirty = true →
      ∀ k ∈ (hwpoison_unmap_and_kill env p pfn trapno ttu1).released,
        Sig.forced k ∈ (hwpoison_unmap_and_kill env p pfn trapno ttu1).sigs) := by
  simp only [hwpoison_unmap_and_kill] at hfail ⊢
  have hdec : decide
      ((unmapTries env.unmap (propagate_dirty env.mkclean ttu1 p).ttu 0 N_UNMAP_TRIES
        (propagate_dirty env.mkclean ttu1 p).page).1 ≠ SWAP_SUCCESS) = true :=
    decide_eq_true hfail
  rw [hdec]
  refine ⟨kill_procs_ao_fail_forced _ _ _ _, fun hd => ?_⟩
  rw [hd]
  exact kill_procs_ao_fail_covers _ _ _

def c2Env : UMEnv := ⟨true, false, false, [⟨7, 4096, true⟩], fun _ _ q => (SWAP_FAIL, q)⟩

def c2Page : Page := ⟨lru, 2, false, false, some ⟨false, false, false⟩⟩

/-- counterexample to C2 as stated: a mapped, clean, file-backed LRU page
whose backing object has no dirty-writeback capability (so the
dirty-propagation block is skipped and killing stays enabled for
collection), with one collected notify entry and `try_to_unmap` failing
every attempt.  The run's unmap step does not fully succeed, process 7 is
on the notify list, yet zero signals are sent: the forced kill is gated on
`doit = PageDirty(p)`, which is false here. -/
theorem unmap_fail_clean_page_no_forced_kill :
    (hwpoison_user_mappings false c2Env c2Page 42 0).ret ≠ SWAP_SUCCESS ∧
    (hwpoison_user_mappings false c2Env c2Page 42 0).released = [7] ∧
    (hwpoison_user_mappings false c2Env c2Page 42 0).sigs = [] := by
  refine ⟨by decide, rfl, rfl⟩

/-- C2 (amended): in every run of the unmap-and-notify protocol in which
the unmap step does not fully succeed, no process receives the advisory
catchable form, and — provided killing is enabled, i.e. the page is dirty
once unmapping is over — every process on the collected notify list is
sent the unconditional, uncatchable termination signal.  (The original
claim's "regardless of other conditions" fails: when the page is clean the
kill-execution step only frees the list.) -/
theorem unmap_fail_kill_severity (cfgExt : Bool) (env : UMEnv) (p : Page)
    (pfn : Nat) (trapno : Int)
    (hfail : (hwpoison_user_mappings cfgExt env p pfn trapno).ret ≠ SWAP_SUCCESS) :
    (∀ s ∈ (hwpoison_user_mappings cfgExt env p pfn trapno).sigs, s.isForced = true) ∧
    (hasFlag (hwpoison_user_mappings cfgExt env p pfn trapno).page PG_dirty = true →
      ∀ k ∈ (hwpoison_user_mappings cfgExt env p pfn trapno).released,
        Sig.forced k ∈ (hwpoison_user_mappings cfgExt env p pfn trapno).sigs) := by
  simp only [hwpoison_user_mappings] at hfail ⊢
  split_ifs at hfail ⊢ with h1 h2 h3 h4
  · exact absurd rfl hfail
  · exact absurd rfl hfail
  · exact ⟨fun s hs => absurd hs (List.not_mem_nil s), fun _ k hk =>
      absurd hk (List.not_mem_nil k)⟩
  · exact unmap_and_kill_fail env p pfn trapno _ hfail
  · exact unmap_and_kill_fail env p pfn trapno _ hfail

def c2wEnv : UMEnv := ⟨true, false, true, [⟨5, 64, true⟩], fun _ _ q => (SWAP_FAIL, q)⟩

def c2wPage : Page := ⟨lru ||| dirty, 2, true, false, none⟩

/-- witness for the amended C2: a dirty anonymous mapped page, one notify
entry, unmap failing every attempt: the only signal sent is the forced
kill of the notified process. -/
theorem unmap_fail_kill_severity_witness :
    (∀ s ∈ (hwpoison_user_mappings false c2wEnv c2wPage 8 1).sigs, s.isForced = true) ∧
    (∀ k ∈ (hwpoison_user_mappings false c2wEnv c2wPage 8 1).released,
      Sig.forced k ∈ (hwpoison_user_mappings false c2wEnv c2wPage 8 1).sigs) := by
  have h := unmap_fail_kill_severity false c2wEnv c2wPage 8 1 (by decide)
  exact ⟨h.1, h.2 (by decide)⟩

/-- C6: when the run reaches the dirty-propagation step (not reserved/slab,
still mapped, not compound/KSM) and the propagation determines the page is
actually clean (clean page, writeback-capable backing object,
`page_mkclean` found no dirty PTEs), the Mapping Collector is never
invoked, zero notify entries are generated, and zero signals of either
kind are sent. -/
theorem clean_propagation_no_notify_no_signals (cfgExt : Bool) (env : UMEnv)
    (p : Page) (pfn : Nat) (trapno : Int) (m : AddrSpace)
    (h1 : hasFlag p PG_reserved = false) (h2 : hasFlag p PG_slab = false)
    (h3 : env.page_mapped = true) (h4 : PageCompound cfgExt p = false)
    (h5 : env.is_ksm = false) (h6 : hasFlag p PG_dirty = false)
    (h7 : page_mapping p = some m) (h8 : m.cap_writeback_dirty = true)
    (h9 : env.mkclean = false) :
    (hwpoison_user_mappings cfgExt env p pfn trapno).collectInvoked = false ∧
    (hwpoison_user_mappings cfgExt env p pfn trapno).sigs = [] ∧
    (hwpoison_user_mappings cfgExt env p pfn trapno).released = [] := by
  have hpr : ∀ ttu, propagate_dirty env.mkclean ttu p =
      ⟨false, ttu ||| TTU_IGNORE_HWPOISON, p⟩ := by
    intro ttu
    simp [propagate_dirty, h7, h6, h8, h9]
  simp [hwpoison_user_mappings, hwpoison_unmap_and_kill, h1, h2, h3, h4, h5,
    hpr, kill_procs_ao]

def c6Env : UMEnv := ⟨true, false, false, [⟨3, 5, true⟩], fun _ _ q => (SWAP_SUCCESS, q)⟩

def c6Page : Page := ⟨lru, 2, false, false, some ⟨true, false, false⟩⟩

/-- witness for C6 at a concrete clean file-backed page with a
writeback-capable backing object. -/
theorem clean_propagation_no_notify_no_signals_witness :
    (hwpoison_user_mappings false c6Env c6Page 4 0).collectInvoked = false ∧
    (hwpoison_user_mappings false c6Env c6Page 4 0).sigs = [] ∧
    (hwpoison_user_mappings false c6Env c6Page 4 0).released = [] :=
  clean_propagation_no_notify_no_signals false c6Env c6Page 4 0
    ⟨true, false, false⟩ (by decide) (by decide) rfl (by decide) rfl (by decide)
    (by decide) (by decide) rfl

/-- C3: `get_any_page` without MF_COUNT_INCREASED returns exactly one of
0 ("was free": the raise from zero failed and the buddy detector confirmed
the page free, the poisoned bit is set), -EIO (raise failed, not confirmed
free, page untouched), or 1 ("not free, now owned": reference held); the
distinct return values make the disjuncts mutually exclusive.  On every
one of these exit paths the event trace shows the migratetype isolation
and the suspend lock acquired and then released before returning. -/
theorem get_any_page_trichotomy (p : Page) (pfn : Nat) (flags : Nat)
    (is_free : Bool) (h : flags &&& MF_COUNT_INCREASED = 0) :
    (get_any_page p pfn flags is_free).events =
      [Ev.lockSystemSleep, Ev.setIsolate, Ev.unsetIsolate, Ev.unlockSystemSleep] ∧
    ((get_any_page p pfn flags is_free).ret = 0 ∧ p.refcount = 0 ∧ is_free = true ∧
        (get_any_page p pfn flags is_free).page = setHWPoison p ∨
      (get_any_page p pfn flags is_free).ret = -5 ∧ p.refcount = 0 ∧
        is_free = false ∧ (get_any_page p pfn flags is_free).page = p ∨
      (get_any_page p pfn flags is_free).ret = 1 ∧ p.refcount ≠ 0 ∧
        (get_any_page p pfn flags is_free).page = incRef p) := by
  by_cases h0 : p.refcount = 0 <;> cases is_free <;> simp [get_any_page, h, h0]

/-- witness for C3 at a concrete free page (count 0, buddy-confirmed). -/
theorem get_any_page_trichotomy_witness :
    (get_any_page ⟨0, 0, false, false, none⟩ 1 0 true).events =
      [Ev.lockSystemSleep, Ev.setIsolate, Ev.unsetIsolate, Ev.unlockSystemSleep] ∧
    ((get_any_page ⟨0, 0, false, false, none⟩ 1 0 true).ret = 0 ∧
        (⟨0, 0, false, false, none⟩ : Page).refcount = 0 ∧ true = true ∧
        (get_any_page ⟨0, 0, false, false, none⟩ 1 0 true).page =
          setHWPoison ⟨0, 0, false, false, none⟩ ∨
      (get_any_page ⟨0, 0, false, false, none⟩ 1 0 true).ret = -5 ∧
        (⟨0, 0, false, false, none⟩ : Page).refcount = 0 ∧ true = false ∧
        (get_any_page ⟨0, 0, false, false, none⟩ 1 0 true).page =
          ⟨0, 0, false, false, none⟩ ∨
      (get_any_page ⟨0, 0, false, false, none⟩ 1 0 true).ret = 1 ∧
        (⟨0, 0, false, false, none⟩ : Page).refcount ≠ 0 ∧
        (get_any_page ⟨0, 0, false, false, none⟩ 1 0 true).page =
          incRef ⟨0, 0, false, false, none⟩) :=
  get_any_page_trichotomy ⟨0, 0, false, false, none⟩ 1 0 true (by decide)

/-- C9: `get_any_page` with the MF_COUNT_INCREASED flag returns 1
immediately with the page untouched (no poisoned bit, no reference-count
change) and an empty event trace (no suspend lock, no migratetype
isolation), for every page and every such call. -/
theorem get_any_page_count_increased_noop (p : Page) (pfn : Nat) (flags : Nat)
    (is_free : Bool) (h : flags &&& MF_COUNT_INCREASED ≠ 0) :
    get_any_page p pfn flags is_free = ⟨1, p, []⟩ := by
  simp [get_any_page, h]

/-- witness for C9 at flags = MF_COUNT_INCREASED on a live page. -/
theorem get_any_page_count_increased_noop_witness :
    get_any_page ⟨lru, 4, false, false, none⟩ 2 MF_COUNT_INCREASED false =
      ⟨1, ⟨lru, 4, false, false, none⟩, []⟩ :=
  get_any_page_count_increased_noop ⟨lru, 4, false, false, none⟩ 2
    MF_COUNT_INCREASED false (by decide)

/-- C7: unpoison on a valid frame whose page is not marked poisoned is a
no-op returning success: the page (poisoned bit, reference count, flags)
and the quarantine ledger are unchanged. -/
theorem unpoison_not_poisoned_noop (p : Page) (ledger : Int)
    (h : p.hwpoison = false) :
    unpoison_memory__clone true p ledger = (0, p, ledger) := by
  simp [unpoison_memory__clone, h]

/-- witness for C7 at a concrete unpoisoned page. -/
theorem unpoison_not_poisoned_noop_witness :
    unpoison_memory__clone true ⟨lru, 3, false, false, none⟩ 11 =
      (0, ⟨lru, 3, false, false, none⟩, 11) :=
  unpoison_not_poisoned_noop ⟨lru, 3, false, false, none⟩ 11 rfl

theorem soft_offline_phase3_ledger (env : SoEnv) (ledger : Int) (p : Page) :
    ((soft_offline_phase3 env ledger p).ret = 0 →
      (soft_offline_phase3 env ledger p).ledger = ledger + 1 ∧
      (soft_offline_phase3 env ledger p).page.hwpoison = true) ∧
    ((soft_offline_phase3 env ledger p).ret ≠ 0 →
      (soft_offline_phase3 env ledger p).ledger = ledger) := by
  simp only [soft_offline_phase3, soDone]
  split_ifs with h1 h2 h3 h4 h5 <;>
    constructor <;> intro hr <;> simp_all [setHWPoison, putPage]

theorem soft_offline_phase2_ledger (env : SoEnv) (pfn : Nat) (ledger : Int)
    (p : Page) :
    ((soft_offline_phase2 env pfn ledger p).ret = 0 →
      (soft_offline_phase2 env pfn ledger p).ledger = ledger + 1 ∧
      (soft_offline_phase2 env pfn ledger p).page.hwpoison = true) ∧
    ((soft_offline_phase2 env pfn ledger p).ret ≠ 0 →
      (soft_offline_phase2 env pfn ledger p).ledger = ledger) := by
  simp only [soft_offline_phase2]
  split_ifs with h1 h2 h3
  · exact soft_offline_phase3_ledger env ledger p
  · constructor <;> intro hr <;> simp_all
  · constructor <;> intro hr <;> simp_all [soDone, setHWPoison]
  · exact soft_offline_phase3_ledger env ledger _

/-- C4: soft-offline is atomic with respect to the quarantine ledger: a
return of 0 (success) increments the ledger by exactly one and leaves the
poisoned bit set; a nonzero (typed-error) return leaves the ledger
unchanged.  A page whose first `get_any_page` reports "was free" is marked
poisoned with the ledger incremented, without the invalidate or migrate
collaborators ever being invoked. -/
theorem soft_offline_ledger_atomicity (env : SoEnv) (p0 : Page) (pfn : Nat)
    (flags : Nat) (ledger : Int) :
    ((soft_offline_page__clone env p0 pfn flags ledger).ret = 0 →
      (soft_offline_page__clone env p0 pfn flags ledger).ledger = ledger + 1 ∧
      (soft_offline_page__clone env p0 pfn flags ledger).page.hwpoison = true) ∧
    ((soft_offline_page__clone env p0 pfn flags ledger).ret ≠ 0 →
      (soft_offline_page__clone env p0 pfn flags ledger).ledger = ledger) ∧
    ((get_any_page p0 pfn flags env.is_free1).ret = 0 →
      (soft_offline_page__clone env p0 pfn flags ledger).invalidateCalled = false ∧
      (soft_offline_page__clone env p0 pfn flags ledger).migrateCalled = false ∧
      (soft_offline_page__clone env p0 pfn flags ledger).ret = 0 ∧
      (soft_offline_page__clone env p0 pfn flags ledger).ledger = ledger + 1 ∧
      (soft_offline_page__clone env p0 pfn flags ledger).page.hwpoison = true) := by
  simp only [soft_offline_page__clone]
  split_ifs with h1 h2
  · refine ⟨fun hr => ?_, fun _ => rfl, fun hg => absurd hg (by omega)⟩
    simp at hr
    omega
  · refine ⟨fun _ => by simp [soDone, setHWPoison], fun hr => absurd h2 (by simp_all [soDone]),
      fun _ => by simp [soDone, setHWPoison, h2]⟩
  · exact ⟨(soft_offline_phase2_ledger env pfn ledger _).1,
      (soft_offline_phase2_ledger env pfn ledger _).2, fun hg => absurd hg h2⟩

def c4Env : SoEnv := ⟨true, true, id, fun q => (0, q), true, fun q => (0, q)⟩

/-- witness for C4: a free page (count 0, buddy-confirmed) is soft-offlined
successfully, the ledger goes from 5 to 6, the poisoned bit is set, and
neither invalidate nor migrate ran. -/
theorem soft_offline_ledger_atomicity_witness :
    ((soft_offline_page__clone c4Env ⟨0, 0, false, false, none⟩ 2 0 5).ledger = 5 + 1 ∧
      (soft_offline_page__clone c4Env ⟨0, 0, false, false, none⟩ 2 0 5).page.hwpoison = true) ∧
    ((soft_offline_page__clone c4Env ⟨0, 0, false, false, none⟩ 2 0 5).invalidateCalled = false ∧
      (soft_offline_page__clone c4Env ⟨0, 0, false, false, none⟩ 2 0 5).migrateCalled = false ∧
      (soft_offline_page__clone c4Env ⟨0, 0, false, false, none⟩ 2 0 5).ret = 0 ∧
      (soft_offline_page__clone c4Env ⟨0, 0, false, false, none⟩ 2 0 5).ledger = 5 + 1 ∧
      (soft_offline_page__clone c4Env ⟨0, 0, false, false, none⟩ 2 0 5).page.hwpoison = true) := by
  have h := soft_offline_ledger_atomicity c4Env ⟨0, 0, false, false, none⟩ 2 0 5
  exact ⟨h.1 (by decide), h.2.2 (by decide)⟩

def c5Env : SoEnv := ⟨false, false, id, fun q => (1, q), true, fun q => (0, q)⟩

def c5Page : Page := ⟨lru, 2, false, false, some ⟨true, false, false⟩⟩

/-- C5 fails on the code: on the successful invalidation path the engine's
own operations leave the reference count back at its pre-call value, not
elevated by one.  Concretely: an LRU page-cache page with count 2;
`get_any_page` raises it to 3, `invalidate_inode_page` succeeds (modelled
here as reference-neutral, the most favourable reading — the real one
also drops the page-cache reference), `put_page` drops back to 2 before
the `ret == 1` test, and the `done` label takes no reference.  The call
reports success and increments the ledger, with the count unchanged —
contradicting the code's own comment "keep elevated page count for bad
page". -/
theorem soft_offline_invalidate_refcount_not_elevated :
    (soft_offline_page__clone c5Env c5Page 3 0 0).ret = 0 ∧
    (soft_offline_page__clone c5Env c5Page 3 0 0).invalidateCalled = true ∧
    (soft_offline_page__clone c5Env c5Page 3 0 0).page.refcount = c5Page.refcount ∧
    (soft_offline_page__clone c5Env c5Page 3 0 0).page.refcount ≠ c5Page.refcount + 1 := by
  exact ⟨rfl, rfl, rfl, by decide⟩

end KernelMemtest
